import Mathlib

/-!
Verification of the ngrid tabular-data pager: a shallow embedding of the
value formatters (`ngrid/formatters.py`), the text metrics they use
(`ngrid/text.py`), and the data-model / type-inference / viewport code
(`ngrid/grid.py`).

Modelling conventions:
* Python `float` inputs are modelled exactly.  Every IEEE-754 double is a
  finite decimal fraction `n / 10^d` (since `2^k` divides `10^k`), so the
  formatter input domain is embedded as `PyVal`: NaN, signed infinity, or a
  finite decimal `fin n d` denoting the rational `n / 10^d`.  All arithmetic
  the formatters perform on such values (abs, comparisons, `round`,
  `int(...)`, division by powers of ten, `floor(log10 ...)`) is exact on this
  representation, and is implemented here over `Int`/`Nat` so the kernel can
  evaluate it.
* Python's `round` builtin rounds half to even on the exact value of its
  argument; `divRHE` / `natDivRHE` implement that division-with-rounding.
* `math.log10` applied to a positive value, composed with `floor`/`ceil` as
  the source does, is modelled exactly: for `q ≠ 0`, `⌊log10 |q|⌋` of the
  decimal `n / 10^d` is `digitLen |n| - 1 - d`, and the source's
  `ceil(precision - log10 abs_value)` equals `precision - ⌊log10 abs_value⌋`
  for every positive real argument.
* Python strings are Lean `String`s; `str(nat)` is `toString`.
* Fallible Python code (constructor `assert`s, `TypeError`, `ValueError`,
  `AttributeError`, `StopIteration`, `EOFError`) is modelled with
  `Except PyErr`.
-/

set_option maxRecDepth 40000

deriving instance DecidableEq for Except

namespace Ngrid

/-- Number of decimal digits of `n`, one step of fuel per digit
(`digitLen 0 = 1`, matching `len(str(0))`). -/
def digitLenGo : ℕ → ℕ → ℕ
  | 0, _ => 1
  | fuel+1, n => if n < 10 then 1 else digitLenGo fuel (n / 10) + 1

/-- `digitLen n = len(str(n))` for a natural number `n`. -/
def digitLen (n : ℕ) : ℕ := digitLenGo n n

/-- Python's `round(n / s)` for an integer `n` and positive divisor `s`:
nearest integer, ties to even. -/
def divRHE (n : ℤ) (s : ℕ) : ℤ :=
  let q := Int.fdiv n s
  let r := n - q * s
  if 2 * r < s then q
  else if (s : ℤ) < 2 * r then q + 1
  else if q % 2 = 0 then q else q + 1

/-- Python's `round(a / s)` for naturals (nonnegative case of `divRHE`). -/
def natDivRHE (a s : ℕ) : ℕ :=
  let q := a / s
  let r := a % s
  if 2 * r < s then q
  else if s < 2 * r then q + 1
  else if q % 2 = 0 then q else q + 1

/-- A finite decimal `(n, d)` denotes the rational `n / 10^d`.  `roundToPrec p`
is Python's `round(x, p)` for `p ≥ 0`: exact if the value already has at most
`p` decimals, otherwise half-to-even at the `p`-th decimal. -/
def roundToPrec (p : ℕ) (x : ℤ × ℕ) : ℤ × ℕ :=
  if x.2 ≤ p then x else (divRHE x.1 (10 ^ (x.2 - p)), p)

/-- Python's `round(x, nd)` for an arbitrary integer `nd` (negative `nd`
rounds to a multiple of `10^(-nd)`). -/
def roundToZ (nd : ℤ) (x : ℤ × ℕ) : ℤ × ℕ :=
  match nd with
  | .ofNat p => roundToPrec p x
  | .negSucc k => (divRHE x.1 (10 ^ (x.2 + (k + 1))) * 10 ^ (k + 1), 0)

/-- `⌊log10 (n / 10^d)⌋` for a nonzero decimal, computed from the digit
count of `|n|`. -/
def intLog10D (x : ℤ × ℕ) : ℤ := (digitLen x.1.natAbs : ℤ) - 1 - (x.2 : ℤ)

/-- Exact division of a decimal by `10^e`. -/
def divPow10 (x : ℤ × ℕ) (e : ℤ) : ℤ × ℕ :=
  match e with
  | .ofNat k => (x.1, x.2 + k)
  | .negSucc k => (x.1 * 10 ^ (k + 1), x.2)

/-- Python's `"#" * w`. -/
def hashStr (w : ℕ) : String := String.mk (List.replicate w '#')

/-- `ngrid.text.pad`: pad `s` with `c` on the chosen side up to `len`
characters; never truncates. -/
def padStr (s : String) (len : ℕ) (c : Char) (left : Bool) : String :=
  if s.length < len then
    if left then String.mk (List.replicate (len - s.length) c) ++ s
    else s ++ String.mk (List.replicate (len - s.length) c)
  else s

/-- Python whitespace test used by `str.strip()` (ASCII whitespace). -/
def isPySpace (c : Char) : Bool :=
  c = ' ' ∨ c = '\t' ∨ c = '\n' ∨ c = '\r' ∨ c = '\x0b' ∨ c = '\x0c'

/-- Python `s.strip()`. -/
def pyStrip (s : String) : String :=
  String.mk (((s.toList.dropWhile isPySpace).reverse.dropWhile isPySpace).reverse)

/-- Python `s.strip(chars)` for an explicit character set. -/
def pyStripChars (cs : List Char) (s : String) : String :=
  String.mk (((s.toList.dropWhile (· ∈ cs)).reverse.dropWhile (· ∈ cs)).reverse)

/-- Python slice `s[: w]`. -/
def strTake (s : String) (w : ℕ) : String := String.mk (s.toList.take w)

/-- Errors raised by the modelled Python code. -/
inductive PyErr where
  /-- An `assert` in a constructor failed (`AssertionError`). -/
  | assertErr
  /-- `TypeError` (e.g. `1 + len(point) + None` when `precision is None`). -/
  | typeErr
  /-- `ValueError` (e.g. `math.log10(0.0)` math domain error). -/
  | valueErr
  /-- `AttributeError` (a call to an undefined method). -/
  | attrErr
  /-- An uncaught `StopIteration` from `next(...)`. -/
  | stopIter
  /-- `EOFError("no data")`, the spec's `EmptyInput`. -/
  | eofErr
  deriving DecidableEq, Repr

/-- The `sign` constructor argument of the numeric formatters:
`None`, `"-"`, or `"+"`. -/
inductive Sgn where
  | nosign
  | minus
  | plus
  deriving DecidableEq, Repr

/-- The sign glyph the numeric formatters prepend:
`"" if sign is None else "-" if value < 0 else "+" if sign == "+" else " "`. -/
def signGlyph (sg : Sgn) (neg : Bool) : String :=
  match sg with
  | .nosign => ""
  | .minus => if neg then "-" else " "
  | .plus => if neg then "-" else "+"

/-- A Python `float` value: NaN, a signed infinity, or the exact finite
decimal `n / 10^d`. -/
inductive PyVal where
  | nan
  | inf (neg : Bool)
  | fin (n : ℤ) (d : ℕ)
  deriving DecidableEq, Repr

/-- `ngrid.formatters.IntFormatter`: configuration fields, with the
constructor's `assert pad in "0 "` and `assert sign in (None, "-", "+")`
captured by the field types (`size ≥ 0` holds in `ℕ`). -/
structure IntFormatter where
  size : ℕ
  pad : Char
  sign : Sgn
  deriving DecidableEq, Repr

/-- `IntFormatter.width`: `size`, plus one if a sign glyph is shown. -/
def IntFormatter.width (f : IntFormatter) : ℕ :=
  f.size + (match f.sign with | .nosign => 0 | _ => 1)

/-- `IntFormatter.format` on an `int` value. -/
def IntFormatter.format (f : IntFormatter) (v : ℤ) : String :=
  let sg := signGlyph f.sign (decide (v < 0))
  let result := toString v.natAbs
  if f.size < result.length ∨ (v < 0 ∧ f.sign = .nosign) then hashStr f.width
  else if f.pad = ' ' then padStr (sg ++ result) (f.size + sg.length) f.pad true
  else sg ++ padStr result f.size f.pad true

/-- `ngrid.formatters.FloatFormatter` configuration. -/
structure FloatFormatter where
  size : ℕ
  precision : Option ℕ
  pad : Char
  sign : Sgn
  point : String
  nanStr : String
  infStr : String
  deriving DecidableEq, Repr

/-- The width of the numeric field before the sign slot is added
(the quantity the constructor checks `nan_str`/`inf_str` against). -/
def FloatFormatter.preWidth (f : FloatFormatter) : ℕ :=
  f.size + (match f.precision with | none => 0 | some p => f.point.length + p)

/-- `FloatFormatter.width`. -/
def FloatFormatter.width (f : FloatFormatter) : ℕ :=
  f.preWidth + (match f.sign with | .nosign => 0 | _ => 1)

/-- `FloatFormatter.__init__`: the `assert`s on `pad`, `nan_str`, `inf_str`
(the remaining asserts hold by typing). -/
def FloatFormatter.init (size : ℕ) (precision : Option ℕ) (pad : Char)
    (sign : Sgn) (point nanS infS : String) : Except PyErr FloatFormatter :=
  if ¬(pad = '0' ∨ pad = ' ') then .error .assertErr
  else
    let f : FloatFormatter :=
      { size := size, precision := precision, pad := pad, sign := sign,
        point := point, nanStr := nanS, infStr := infS }
    if f.preWidth < nanS.length then .error .assertErr
    else if f.preWidth < infS.length then .error .assertErr
    else .ok f

/-- `precision` with `None` mapped to 0, as in
`precision = 0 if self.__precision is None else self.__precision`. -/
def FloatFormatter.prec0 (f : FloatFormatter) : ℕ :=
  match f.precision with | none => 0 | some q => q

/-- `abs(round(value, precision))` as a decimal `(numerator, decimals)`. -/
def FloatFormatter.roundedAbs (f : FloatFormatter) (n : ℤ) (d : ℕ) : ℕ × ℕ :=
  let r := roundToPrec f.prec0 (n, d)
  (r.1.natAbs, r.2)

/-- `int(abs(round(value, precision)))`. -/
def FloatFormatter.intValue (f : FloatFormatter) (n : ℤ) (d : ℕ) : ℕ :=
  (f.roundedAbs n d).1 / 10 ^ (f.roundedAbs n d).2

/-- `FloatFormatter.format` on a `float` value. -/
def FloatFormatter.format (f : FloatFormatter) (v : PyVal) : String :=
  match v with
  | .nan => padStr f.nanStr f.width ' ' true
  | .inf neg =>
    if neg ∧ f.sign = .nosign then hashStr f.width
    else padStr (signGlyph f.sign neg ++ f.infStr) f.width ' ' true
  | .fin n d =>
    let sg := signGlyph f.sign (decide (n < 0))
    let m := f.roundedAbs n d
    let iv := f.intValue n d
    let result := toString iv
    if f.size < result.length ∨ (f.sign = .nosign ∧ n < 0) then hashStr f.width
    else
      let core :=
        if f.pad = ' ' then padStr (sg ++ result) (f.size + sg.length) f.pad true
        else sg ++ padStr result f.size f.pad true
      match f.precision with
      | none => core
      | some 0 => core ++ f.point
      | some (q+1) =>
        let frac := natDivRHE ((m.1 - iv * 10 ^ m.2) * 10 ^ (q + 1)) (10 ^ m.2)
        core ++ f.point ++ padStr (toString frac) (q + 1) '0' true

/-- `ngrid.formatters.ScientificFloatFormatter` configuration.  The
constructor raises `TypeError` when `precision is None` (the width
computation adds `None` to an int), so a constructed formatter always has a
natural-number `precision`; `nanStr`/`infStr` hold the already
stripped/truncated/padded literals the constructor stores. -/
structure ScientificFloatFormatter where
  size : ℕ
  precision : ℕ
  pad : Char
  sign : Sgn
  point : String
  exp : String
  nanStr : String
  infStr : String
  deriving DecidableEq, Repr

/-- `ScientificFloatFormatter.width`:
`1 + len(point) + precision + len(exp) + 1 + size`, plus one if signed. -/
def ScientificFloatFormatter.width (f : ScientificFloatFormatter) : ℕ :=
  1 + f.point.length + f.precision + f.exp.length + 1 + f.size
    + (match f.sign with | .nosign => 0 | _ => 1)

/-- `ScientificFloatFormatter.__init__`.  With `precision=None` the width
computation `1 + len(point) + precision + ...` raises `TypeError`; otherwise
the NaN and infinity literals are stripped, truncated to the pre-sign width
and right-padded (`text.pad(nan_str.strip()[: width], width)`) — there is no
length assert. -/
def ScientificFloatFormatter.init (size : ℕ) (precision : Option ℕ)
    (pad : Char) (sign : Sgn) (point exp nanS infS : String) :
    Except PyErr ScientificFloatFormatter :=
  match precision with
  | none => .error .typeErr
  | some p =>
    let w := 1 + point.length + p + exp.length + 1 + size
    .ok { size := size, precision := p, pad := pad, sign := sign,
          point := point, exp := exp,
          nanStr := padStr (strTake (pyStrip nanS) w) w ' ' false,
          infStr := padStr (strTake (pyStrip infS) w) w ' ' false }

/-- `ScientificFloatFormatter.format` on a `float` value.  For a finite
value the source computes `math.log10(abs_value)`, which raises `ValueError`
(math domain error) when the value is `0.0`. -/
def ScientificFloatFormatter.format (f : ScientificFloatFormatter)
    (v : PyVal) : Except PyErr String :=
  let addSign : Bool → String → String := fun neg r =>
    match f.sign with
    | .minus => (if neg then "-" else " ") ++ r
    | .plus => (if neg then "-" else "+") ++ r
    | .nosign => r
  match v with
  | .nan => .ok (addSign false f.nanStr)
  | .inf neg => .ok (addSign neg f.infStr)
  | .fin n d =>
    if n = 0 then .error .valueErr
    else
      let a : ℤ × ℕ := (n.natAbs, d)
      let rnd := roundToZ ((f.precision : ℤ) - intLog10D a) a
      let ex : ℤ := intLog10D rnd
      let mant := divPow10 rnd ex
      let iv : ℕ := mant.1.toNat / 10 ^ mant.2
      let r1 := addSign (decide (n < 0)) (toString iv)
      let r2 :=
        if f.precision = 0 then r1 ++ f.point
        else
          let frac := natDivRHE ((mant.1.toNat - iv * 10 ^ mant.2)
            * 10 ^ f.precision) (10 ^ mant.2)
          r1 ++ f.point ++ padStr (toString frac) f.precision '0' true
      let r3 := r2 ++ f.exp ++ (if 0 ≤ ex then "+" else "-")
      let es := padStr (toString ex.natAbs) f.size '0' true
      .ok (if f.size < es.length then r3 ++ hashStr f.size else r3 ++ es)

/-- The scientific formatter built by
`ScientificFloatFormatter(2, 2)` (all other arguments default). -/
def sciFmt22 : ScientificFloatFormatter :=
  { size := 2, precision := 2, pad := ' ', sign := .minus, point := ".",
    exp := "E", nanStr := "NaN     ", infStr := "Inf     " }

example :
    ScientificFloatFormatter.init 2 (some 2) ' ' .minus "." "E" "NaN" "Inf"
      = .ok sciFmt22 := by decide
example : ScientificFloatFormatter.format sciFmt22 (.fin 1 0)
    = .ok " 1.00E+00" := by decide
example : ScientificFloatFormatter.format sciFmt22 (.fin 995001 6)
    = .ok " 9.95E-01" := by decide
example : ScientificFloatFormatter.format sciFmt22 (.fin (-999501) 6)
    = .ok "-1.00E+00" := by decide
example : ScientificFloatFormatter.format sciFmt22 (.fin 123556789012 0)
    = .ok " 1.24E+11" := by decide
example : ScientificFloatFormatter.format sciFmt22 (.fin 1 99)
    = .ok " 1.00E-99" := by decide
example : ScientificFloatFormatter.format sciFmt22 (.fin 994 102)
    = .ok " 9.94E-##" := by decide

/-- Python `str.lower()` (ASCII). -/
def pyLower (s : String) : String := String.mk (s.toList.map Char.toLower)

/-- `ngrid.grid.as_bool` restricted to its string branch: case-insensitive
`"true"` / `"false"`, anything else raises. -/
def asBool (s : String) : Except PyErr Bool :=
  if pyLower s = "true" then .ok true
  else if pyLower s = "false" then .ok false
  else .error .valueErr

/-- Strip one optional leading `+`/`-`. -/
def dropSign : List Char → List Char
  | '+' :: cs => cs
  | '-' :: cs => cs
  | cs => cs

/-- Whether Python's `int(s)` succeeds on the string `s`: optional
whitespace and sign around a nonempty digit run (numeric-literal
underscores are not modelled). -/
def pyIntOk (s : String) : Bool :=
  let u := dropSign (pyStrip s).toList
  u ≠ [] ∧ u.all (·.isDigit)

/-- Value of a digit run. -/
def digitsVal (cs : List Char) : ℕ :=
  cs.foldl (fun a c => a * 10 + (c.toNat - '0'.toNat)) 0

/-- Exact multiplication of a decimal by `10^e`. -/
def mulPow10 (x : ℤ × ℕ) (e : ℤ) : ℤ × ℕ :=
  match e with
  | .ofNat k => (x.1 * 10 ^ k, x.2)
  | .negSucc k => (x.1, x.2 + (k + 1))

/-- Python's `float(s)` on a string: optional whitespace/sign, `inf` /
`infinity` / `nan` (case-insensitive), or a decimal literal with optional
fraction and exponent; `none` when `float` raises `ValueError`
(numeric-literal underscores are not modelled). -/
def pyFloatParse (s : String) : Option PyVal :=
  let t := (pyStrip s).toList
  let neg : Bool := match t with | '-' :: _ => true | _ => false
  let u := dropSign t
  let low := String.mk (u.map Char.toLower)
  if low = "inf" ∨ low = "infinity" then some (.inf neg)
  else if low = "nan" then some .nan
  else
    let mant := u.takeWhile (fun c => ¬(c = 'e' ∨ c = 'E'))
    let rest := u.drop mant.length
    let expVal : Option ℤ :=
      match rest with
      | [] => some 0
      | _ :: es =>
        let eneg : Bool := match es with | '-' :: _ => true | _ => false
        let es2 := dropSign es
        if es2 ≠ [] ∧ es2.all (·.isDigit) then
          some (if eneg then -(digitsVal es2 : ℤ) else (digitsVal es2 : ℤ))
        else none
    let ip := mant.takeWhile (· ≠ '.')
    let fpRest := mant.drop ip.length
    let fp : List Char := match fpRest with | [] => [] | _ :: fs => fs
    match expVal with
    | none => none
    | some e =>
      if ip.all (·.isDigit) ∧ fp.all (·.isDigit) ∧ (ip ≠ [] ∨ fp ≠ []) then
        let m : ℕ := digitsVal (ip ++ fp)
        let x := mulPow10 (if neg then (-(m : ℤ), fp.length) else ((m : ℤ), fp.length)) e
        some (.fin x.1 x.2)
      else none

/-- `ngrid.grid.as_float` on a raw string: the empty string converts to
NaN, anything else goes through `float(...)`. -/
def asFloat (s : String) : Except PyErr PyVal :=
  if s = "" then .ok .nan
  else match pyFloatParse s with
    | some v => .ok v
    | none => .error .valueErr

/-- The candidate column kinds, `ngrid.grid.TYPES`, most to least
specific. -/
inductive PyType where
  | bool
  | int
  | float
  | str
  deriving DecidableEq, Repr

/-- `ngrid.grid.TYPES = [bool, int, float, str]`. -/
def TYPES : List PyType := [.bool, .int, .float, .str]

/-- Whether the converter `TYPE_CONVERTERS.get(type, type)` succeeds on the
raw string `s` (`as_bool`, `int`, `as_float`, `str`; `str` never fails). -/
def convOk : PyType → String → Bool
  | .bool, s => (asBool s).isOk
  | .int, s => pyIntOk s
  | .float, s => (asFloat s).isOk
  | .str, _ => true

/-- `ngrid.grid.guess_type`: the first kind in `TYPES` whose converter
succeeds on every sampled value (`none` models the trailing
`RuntimeError`). -/
def guessType (values : List String) : Option PyType :=
  TYPES.find? (fun t => values.all (convOk t))

/-- `DelimitedFileModel.clean_line`: drop NUL characters, then strip. -/
def cleanLine (l : String) : String :=
  pyStrip (String.mk (l.toList.filter (· ≠ '\x00')))

/-- `DelimitedFileModel.clean_row`: strip spaces and double quotes from
each value. -/
def cleanRow (row : List String) : List String :=
  row.map (pyStripChars [' ', '"'])

/-- States of the CSV field scanner (Python `csv.reader` on a single line,
quote character `"`, doubled quotes produce a literal quote, non-strict). -/
inductive CsvState where
  | startField
  | inField
  | inQuotes
  | quoteInQuotes

/-- One-line CSV splitter: accumulates the current field and the finished
fields, mirroring `csv.reader(..., delimiter=delim, quotechar='"')` for
single-line records. -/
def csvSplitGo (delim : Char) (st : CsvState) (cur : List Char)
    (acc : List (List Char)) : List Char → List (List Char)
  | [] => acc ++ [cur]
  | c :: cs =>
    match st with
    | .startField =>
      if c = '"' then csvSplitGo delim .inQuotes cur acc cs
      else if c = delim then csvSplitGo delim .startField [] (acc ++ [cur]) cs
      else csvSplitGo delim .inField (cur ++ [c]) acc cs
    | .inField =>
      if c = delim then csvSplitGo delim .startField [] (acc ++ [cur]) cs
      else csvSplitGo delim .inField (cur ++ [c]) acc cs
    | .inQuotes =>
      if c = '"' then csvSplitGo delim .quoteInQuotes cur acc cs
      else csvSplitGo delim .inQuotes (cur ++ [c]) acc cs
    | .quoteInQuotes =>
      if c = '"' then csvSplitGo delim .inQuotes (cur ++ ['"']) acc cs
      else if c = delim then csvSplitGo delim .startField [] (acc ++ [cur]) cs
      else csvSplitGo delim .inField (cur ++ [c]) acc cs

/-- Parse one line as a CSV record (an empty line yields an empty record,
as `csv.reader` does). -/
def csvSplit (delim : Char) (line : String) : List String :=
  if line = "" then []
  else (csvSplitGo delim .startField [] [] line.toList).map String.mk

/-- `ngrid.grid.DELIMS = [',', ' ', '|', '\t']`. -/
def DELIMS : List Char := [',', ' ', '|', '\t']

/-- `get_count` inside `guess_delimiter`, with the first sampled line held
separately (the source consumes it with `next(rows)`): the common record
length if every sampled line parses to the same number of fields under
`delim`, else 0. -/
def getCount (delim : Char) (l : String) (ls : List String) : ℕ :=
  let r := csvSplit delim l
  if ls.all (fun x => (csvSplit delim x).length = r.length) then r.length
  else 0

/-- Python tuple comparison on a `(count, delimiter)` pair, as used by
`sorted(counts)`: lexicographic on the count, then on the delimiter's
character code. -/
def delimLe (a b : ℕ × Char) : Prop :=
  a.1 < b.1 ∨ (a.1 = b.1 ∧ a.2.toNat ≤ b.2.toNat)

instance : DecidableRel delimLe := fun a b => by unfold delimLe; infer_instance

instance : IsTotal (ℕ × Char) delimLe :=
  ⟨by intro a b; unfold delimLe; omega⟩

instance : IsTrans (ℕ × Char) delimLe :=
  ⟨by intro a b c; unfold delimLe; omega⟩

/-- Python's `sorted` on `(count, delimiter)` pairs (a stable sort ordered
by `delimLe`). -/
def pySorted (l : List (ℕ × Char)) : List (ℕ × Char) :=
  List.insertionSort delimLe l

/-- `ngrid.grid.guess_delimiter` with the default candidate list: compute
`(get_count(d), d)` for every candidate, sort, take the last.  On an empty
line list the `next(rows)` inside `get_count` raises `StopIteration`
(modelled as `none`). -/
def guessDelimiter (lines : List String) : Option Char :=
  match lines with
  | [] => none
  | l :: ls =>
    let counts := DELIMS.map (fun dl => (getCount dl l ls, dl))
    ((pySorted counts).getLast?).map Prod.snd

/-- `DelimitedFileModel.__is_comment`:
`comment_prefix is not None and line.startswith(comment_prefix)`
(`startswith` expressed on character lists). -/
def isComment (mark : Option String) (l : String) : Bool :=
  match mark with
  | none => false
  | some m => m.toList.isPrefixOf l.toList

/-- The `while count < max_lines` reading loop of
`DelimitedFileModel.__read_sample_lines`: every line read is appended to the
sample; only non-comment lines increase `count`.  Returns the sample lines
and the unconsumed remainder of the input. -/
def readLoop (mark : Option String) (maxLines count : ℕ) (acc : List String) :
    List String → List String × List String
  | [] => (acc, [])
  | l :: rest =>
    if maxLines ≤ count then (acc, l :: rest)
    else readLoop mark maxLines (count + (if isComment mark l then 0 else 1))
      (acc ++ [l]) rest

/-- `DelimitedFileModel.__read_sample_lines`.  The source reads the first
line with `next(...)` (raising `StopIteration` on empty input, which
propagates out of the constructor), and its leading-comment loop calls
`self.__read_line()`, a method that does not exist anywhere in the class —
so a nonempty first line matching the comment marker raises
`AttributeError` after buffering that one comment.  Consequently the
returned comment list is always empty. -/
def readSampleLines (mark : Option String) (maxLines : ℕ)
    (ls : List String) : Except PyErr ((List String × List String) × List String) :=
  if maxLines = 0 then .ok (([], []), ls)
  else
    match ls with
    | [] => .error .stopIter
    | l :: rest =>
      if 0 < l.length ∧ isComment mark l then .error .attrErr
      else
        let first := if 0 < l.length then [l] else []
        let c0 := if 0 < l.length then 1 else 0
        let lr := readLoop mark maxLines c0 first rest
        .ok ((lr.1, []), lr.2)

/-- The sampling phase of `DelimitedFileModel.__init__`: clamp the sample
size to at least 2, clean the incoming lines, read the sample, and raise
`EOFError("no data")` when no sample lines were collected.  Returns the
sample lines and the title (comment) lines. -/
def DelimitedFileModel.initSample (mark : Option String) (numSample : ℕ)
    (rawLines : List String) : Except PyErr (List String × List String) :=
  let ns := max numSample 2
  let cleaned := rawLines.map cleanLine
  match readSampleLines mark ns cleaned with
  | .error e => .error e
  | .ok ((sample, comments), _) =>
    if sample.length = 0 then .error .eofErr else .ok (sample, comments)

/-- `ngrid.grid.DataFrameModel`: a Pandas dataframe as the model sees it —
an optionally named index column plus named data columns stored
column-wise. -/
structure DataFrameModel (α : Type) where
  indexName : Option String
  index : List α
  cols : List (String × List α)

/-- `DataFrameModel.num_rows` (`len(df)`). -/
def DataFrameModel.numRows {α : Type} (df : DataFrameModel α) : ℕ :=
  df.index.length

/-- `DataFrameModel.num_cols = 1 + len(df.columns)`. -/
def DataFrameModel.numCols {α : Type} (df : DataFrameModel α) : ℕ :=
  1 + df.cols.length

/-- `DataFrameModel.names = (df.index.name,) + tuple(df.columns)`. -/
def DataFrameModel.names {α : Type} (df : DataFrameModel α) :
    List (Option String) :=
  df.indexName :: df.cols.map (fun c => some c.1)

/-- `tuple(df.iloc[idx])`: the `idx`-th entry of every column, `none` if
any column is too short. -/
def colVals? {α : Type} (i : ℕ) : List (String × List α) → Option (List α)
  | [] => some []
  | c :: cs =>
    match c.2[i]?, colVals? i cs with
    | some v, some vs => some (v :: vs)
    | _, _ => none

/-- `DataFrameModel.get_row(idx) = (df.index[idx],) + tuple(df.iloc[idx])`;
`none` models the `IndexError` on an out-of-range position. -/
def DataFrameModel.getRow? {α : Type} (df : DataFrameModel α) (idx : ℕ) :
    Option (List α) :=
  match df.index[idx]?, colVals? idx df.cols with
  | some iv, some vs => some (iv :: vs)
  | _, _ => none

/-- A small concrete dataframe: named index `[10, 20]`, columns
`a = [1, 2]` and `b = [3, 4]`. -/
def dfExample : DataFrameModel ℤ :=
  { indexName := some "idx", index := [10, 20],
    cols := [("a", [1, 2]), ("b", [3, 4])] }

/-- `ngrid.grid.clip`. -/
def clip (lo v hi : ℤ) : ℤ :=
  if v < lo then lo else if hi < v then hi else v

/-- The table-model geometry a `GridView` sees while moving: the model's
`num_rows` and `done` flag, the viewport height `self.__num_rows`, the
frozen-column count, the model's `num_cols`, and `__get_last_col` as an
abstract function of the leftmost scrollable column (its value depends on
formatter widths and the screen width, which the movement claim quantifies
over). -/
structure GridGeom where
  mRows : ℤ
  done : Bool
  vRows : ℤ
  numFrozen : ℤ
  numCols : ℤ
  lastCol : ℤ → ℤ

/-- The mutable `GridView` fields touched by the movement commands:
`__idx0`, `__idx1`, `__col0`, and the cursor cell. -/
structure GridState where
  idx0 : ℤ
  idx1 : ℤ
  col0 : ℤ
  curRow : ℤ
  curCol : ℤ
  deriving DecidableEq, Repr

/-- `GridView.__init__` + `__set_geometry`: `idx0 = 0`,
`idx1 = idx0 + num_rows`, `col0 = num_frozen`, cursor at `(0, 0)`. -/
def GridView.initState (g : GridGeom) : GridState :=
  { idx0 := 0, idx1 := 0 + g.vRows, col0 := g.numFrozen,
    curRow := 0, curCol := 0 }

/-- `GridView.__move_to`. -/
def GridView.moveTo (g : GridGeom) (s : GridState) (line : ℤ) : GridState :=
  let i0 := max 0 line
  let i1 := i0 + g.vRows
  let i1' := if g.done then min i1 g.mRows else i1
  let i0' := if g.done then min i0 (i1' - 1) else i0
  { s with idx0 := i0', idx1 := i1', curRow := clip i0' s.curRow (i1' - 1) }

/-- `GridView.__move_by`. -/
def GridView.moveBy (g : GridGeom) (s : GridState) (d : ℤ) : GridState :=
  GridView.moveTo g s (s.idx0 + d)

/-- `GridView.__move_to_col`. -/
def GridView.moveToCol (g : GridGeom) (s : GridState) (c : ℤ) : GridState :=
  let c0 := clip g.numFrozen c (g.numCols - 1)
  { s with col0 := c0, curCol := clip c0 s.curCol (g.lastCol c0) }

/-- A movement command sent to the viewport. -/
inductive GridCmd where
  | moveTo (line : ℤ)
  | moveBy (d : ℤ)
  | moveToCol (c : ℤ)

/-- Apply one movement command. -/
def GridView.step (g : GridGeom) (s : GridState) : GridCmd → GridState
  | .moveTo line => GridView.moveTo g s line
  | .moveBy d => GridView.moveBy g s d
  | .moveToCol c => GridView.moveToCol g s c

/-- Apply a finite sequence of movement commands. -/
def GridView.run (g : GridGeom) (s : GridState) (cmds : List GridCmd) :
    GridState :=
  cmds.foldl (GridView.step g) s

/-- A small concrete geometry: `R` model rows, `done` flag, viewport height
`h`, no frozen columns, one column, trivial `__get_last_col`. -/
def gridG (R : ℤ) (done : Bool) (h : ℤ) : GridGeom :=
  { mRows := R, done := done, vRows := h, numFrozen := 0, numCols := 1,
    lastCol := fun _ => 0 }

/-- The row-offset facts that movement preserves: the offset never drops
below `-1`; while the model is not done it is nonnegative; once the model
is done and has at least one row it stays within `[0, row_count - 1]`. -/
def RowOffsetOK (g : GridGeom) (s : GridState) : Prop :=
  -1 ≤ s.idx0 ∧
  (g.done = false → 0 ≤ s.idx0) ∧
  (g.done = true → 1 ≤ g.mRows → 0 ≤ s.idx0 ∧ s.idx0 ≤ g.mRows - 1)

example : guessType ["true", "false"] = some .bool := by decide
example : guessType ["1", "2", "3.5"] = some .float := by decide
example : guessType ["1", "2", "x"] = some .str := by decide
example : asFloat "" = .ok .nan := by decide
example : asFloat "-1.25e2" = .ok (.fin (-12500) 2) := by decide
example : csvSplit ',' "a,\"b,c\",d" = ["a", "b,c", "d"] := by decide
example : guessDelimiter ["a,b,c", "1,2,3"] = some ',' := by decide
example : guessDelimiter ["a,b\tc"] = some ',' := by decide

/-- The fixed-point formatter built by `FloatFormatter(4, 2)`. -/
def floatFmt42 : FloatFormatter :=
  { size := 4, precision := some 2, pad := ' ', sign := .minus, point := ".",
    nanStr := "NaN", infStr := "Inf" }

/-- The fixed-point formatter built by `FloatFormatter(4, None)`. -/
def floatFmt4none : FloatFormatter :=
  { size := 4, precision := none, pad := ' ', sign := .minus, point := ".",
    nanStr := "NaN", infStr := "Inf" }

example : IntFormatter.format ⟨4, ' ', .minus⟩ 0 = "    0" := by decide
example : IntFormatter.format ⟨4, ' ', .minus⟩ (-9999) = "-9999" := by decide
example : IntFormatter.format ⟨4, ' ', .minus⟩ 10000 = "#####" := by decide
example : IntFormatter.format ⟨4, '0', .minus⟩ (-1) = "-0001" := by decide
example : IntFormatter.format ⟨4, ' ', .nosign⟩ (-1) = "####" := by decide

example :
    FloatFormatter.format ⟨4, some 2, ' ', .minus, ".", "NaN", "Inf"⟩
      (.fin 123449999999 10) = "   12.34" := by decide
example :
    FloatFormatter.format ⟨4, some 2, ' ', .minus, ".", "NaN", "Inf"⟩
      (.fin (-123450000001) 10) = "  -12.35" := by decide
example :
    FloatFormatter.format ⟨4, some 2, ' ', .minus, ".", "NaN", "Inf"⟩
      (.fin 9999999 3) = "########" := by decide
example :
    FloatFormatter.format ⟨4, some 2, ' ', .minus, ".", "NaN", "Inf"⟩
      .nan = "     NaN" := by decide
example :
    FloatFormatter.format ⟨4, some 2, ' ', .minus, ".", "NaN", "Inf"⟩
      (.inf true) = "    -Inf" := by decide
example :
    FloatFormatter.format ⟨4, none, ' ', .minus, ".", "NaN", "Inf"⟩
      (.fin 125 1) = "   12" := by decide
example :
    FloatFormatter.format ⟨4, some 2, '0', .minus, ".", "NaN", "Inf"⟩
      (.fin (-1) 0) = "-0001.00" := by decide

end Ngrid

namespace Ngrid

/-- Shared: a run of `w` hash marks has length `w`. -/
theorem hashStr_length (w : ℕ) : (hashStr w).length = w := by
  simp [hashStr, String.length]

/-- C1: the overflow-marker law "`len(f.format(x)) == f.width` for every
input in the declared domain, including 0.0 and `precision = None`
configurations" fails on the code for the scientific formatter: with the
declared-domain input `0.0` the source evaluates `math.log10(abs_value)`
and raises `ValueError` instead of returning any string, and constructing
`ScientificFloatFormatter` with `precision=None` raises `TypeError` in the
width computation. -/
theorem claim1_sci_zero_and_precision_none_raise :
    ScientificFloatFormatter.format sciFmt22 (.fin 0 0) = .error .valueErr ∧
    ScientificFloatFormatter.init 2 none ' ' .minus "." "E" "NaN" "Inf"
      = .error .typeErr := by decide

/-- C2: for the Int formatter and the fixed-point Float formatter, a
(rounded) integral magnitude needing more digits than `size`, or a negative
value under `sign=None` — a finite negative value or negative infinity —
always formats as exactly `width` `#` characters. -/
theorem claim2_overflow_hash_exact :
    (∀ (fi : IntFormatter) (v : ℤ),
      fi.size < (toString v.natAbs).length ∨ (v < 0 ∧ fi.sign = .nosign) →
      IntFormatter.format fi v = hashStr fi.width ∧
        (IntFormatter.format fi v).length = fi.width) ∧
    (∀ (ff : FloatFormatter) (n : ℤ) (d : ℕ),
      ff.size < (toString (ff.intValue n d)).length ∨
        (ff.sign = .nosign ∧ n < 0) →
      FloatFormatter.format ff (.fin n d) = hashStr ff.width ∧
        (FloatFormatter.format ff (.fin n d)).length = ff.width) ∧
    (∀ ff : FloatFormatter, ff.sign = .nosign →
      FloatFormatter.format ff (.inf true) = hashStr ff.width ∧
        (FloatFormatter.format ff (.inf true)).length = ff.width) := by
  refine ⟨?_, ?_, ?_⟩
  · intro fi v h
    have he : IntFormatter.format fi v = hashStr fi.width := by
      simp only [IntFormatter.format]
      rw [if_pos h]
    exact ⟨he, by rw [he, hashStr_length]⟩
  · intro ff n d h
    have he : FloatFormatter.format ff (.fin n d) = hashStr ff.width := by
      simp only [FloatFormatter.format]
      rw [if_pos h]
    exact ⟨he, by rw [he, hashStr_length]⟩
  · intro ff h
    have he : FloatFormatter.format ff (.inf true) = hashStr ff.width := by
      simp only [FloatFormatter.format]
      rw [if_pos ⟨trivial, h⟩]
    exact ⟨he, by rw [he, hashStr_length]⟩

/-- C2 witness: `IntFormatter(4)` on 10000 and `FloatFormatter(4, 2)` on
9999.999 (which rounds to 10000.00) both `#`-fill, and
`FloatFormatter(4, 2, sign=None)` `#`-fills negative infinity. -/
theorem claim2_overflow_hash_exact_witness :
    (IntFormatter.format ⟨4, ' ', .minus⟩ 10000 = hashStr 5 ∧
      (IntFormatter.format ⟨4, ' ', .minus⟩ 10000).length = 5) ∧
    (FloatFormatter.format floatFmt42 (.fin 9999999 3) = hashStr 8 ∧
      (FloatFormatter.format floatFmt42 (.fin 9999999 3)).length = 8) ∧
    (FloatFormatter.format ⟨4, some 2, ' ', .nosign, ".", "NaN", "Inf"⟩
        (.inf true) = hashStr 7 ∧
      (FloatFormatter.format ⟨4, some 2, ' ', .nosign, ".", "NaN", "Inf"⟩
        (.inf true)).length = 7) :=
  ⟨claim2_overflow_hash_exact.1 ⟨4, ' ', .minus⟩ 10000 (by decide),
   claim2_overflow_hash_exact.2.1 floatFmt42 9999999 3 (by decide),
   claim2_overflow_hash_exact.2.2
     ⟨4, some 2, ' ', .nosign, ".", "NaN", "Inf"⟩ rfl⟩

/-- C3 counterexample: the claim's half-away-from-zero rounding is false on
the code.  `FloatFormatter(4, None).format(12.5)` — a value exactly on the
.5 boundary, the claim's own example — returns `"   12"` (Python's `round`
is half-to-even), not the away-from-zero `"   13"` the claim requires. -/
theorem claim3_half_away_counterexample :
    FloatFormatter.format floatFmt4none (.fin 125 1) = "   12" ∧
    ("   12" : String) ≠ "   13" := by decide

/-- C3 amended: the fixed-point formatter rounds with Python's
round-half-to-even.  Both non-boundary fixtures hold
(`12.3449999999 → "   12.34"`, `12.3450000001 → "   12.35"`), while exact
.5-boundary values round to the even neighbour for positive and negative
values alike: `12.345 → "   12.34"`, `12.5 → "   12"`, `13.5 → "   14"`,
`-12.5 → "  -12"`. -/
theorem claim3_round_half_even :
    FloatFormatter.format floatFmt42 (.fin 123449999999 10) = "   12.34" ∧
    FloatFormatter.format floatFmt42 (.fin 123450000001 10) = "   12.35" ∧
    FloatFormatter.format floatFmt42 (.fin 12345 3) = "   12.34" ∧
    FloatFormatter.format floatFmt4none (.fin 125 1) = "   12" ∧
    FloatFormatter.format floatFmt4none (.fin 135 1) = "   14" ∧
    FloatFormatter.format floatFmt4none (.fin (-125) 1) = "  -12" := by decide

/-- C4 counterexample: `ScientificFloatFormatter(2, 2).format(9.996e99)`
does not return a string of `#` characters filling the entire width; the
code renormalizes the mantissa carry and `#`-fills only the exponent field,
returning `" 1.00E+##"`. -/
theorem claim4_full_hash_counterexample :
    ScientificFloatFormatter.format sciFmt22 (.fin (9996 * 10 ^ 96) 0)
      = .ok " 1.00E+##" ∧
    (" 1.00E+##" : String) ≠ hashStr sciFmt22.width := by decide

/-- C4 amended: `9.99e99` formats as `" 9.99E+99"`; for `9.996e99` the
mantissa rounds to 10 and carries, the exponent becomes 100 and needs 3
digits, and the code `#`-fills only the exponent field, yielding
`" 1.00E+##"` — still exactly `width` characters. -/
theorem claim4_carry_exponent_hash :
    ScientificFloatFormatter.init 2 (some 2) ' ' .minus "." "E" "NaN" "Inf"
      = .ok sciFmt22 ∧
    ScientificFloatFormatter.format sciFmt22 (.fin (999 * 10 ^ 97) 0)
      = .ok " 9.99E+99" ∧
    ScientificFloatFormatter.format sciFmt22 (.fin (9996 * 10 ^ 96) 0)
      = .ok " 1.00E+##" ∧
    (" 1.00E+##" : String).length = sciFmt22.width := by decide

/-- C5: type inference tries Bool, Int, Float, String in that order and
returns the first kind whose converter succeeds on every sampled value,
with String always succeeding as fallback; `["true","false"]` infers Bool,
`["1","2","3.5"]` infers Float, `["1","2","x"]` infers String, and the
empty string converts to NaN under the Float converter. -/
theorem claim5_guess_type_order :
    (∀ values : List String,
      guessType values = some (
        if values.all (convOk .bool) then PyType.bool
        else if values.all (convOk .int) then PyType.int
        else if values.all (convOk .float) then PyType.float
        else PyType.str)) ∧
    guessType ["true", "false"] = some .bool ∧
    guessType ["1", "2", "3.5"] = some .float ∧
    guessType ["1", "2", "x"] = some .str ∧
    asFloat "" = .ok .nan := by
  refine ⟨?_, by decide, by decide, by decide, by decide⟩
  intro vs
  have hstr : vs.all (convOk .str) = true := by
    simp [List.all_eq_true, convOk]
  cases hb : vs.all (convOk .bool) <;> cases hi : vs.all (convOk .int) <;>
      cases hf : vs.all (convOk .float) <;>
    simp [guessType, TYPES, List.find?, hb, hi, hf, hstr]

/-- C7: the sampling constructor is broken in both directions the claim
describes.  With a leading comment line the comment loop calls the
undefined method `self.__read_line()` and raises `AttributeError` instead
of buffering the comments; with an entirely empty input the initial
`next(...)` raises `StopIteration` instead of `EOFError` (`EmptyInput`).
Only an input whose cleaned first line is empty and has no further lines
reaches the intended `EOFError("no data")`. -/
theorem claim7_sampling_raises :
    DelimitedFileModel.initSample (some "#") 100 ["# title", "a,b", "1,2"]
      = .error .attrErr ∧
    DelimitedFileModel.initSample (some "#") 100 [] = .error .stopIter ∧
    DelimitedFileModel.initSample (some "#") 100 [""] = .error .eofErr := by
  decide

/-- The initial viewport state satisfies the row-offset facts. -/
theorem rowOK_initState (g : GridGeom) :
    RowOffsetOK g (GridView.initState g) := by
  unfold RowOffsetOK
  refine ⟨?_, fun _ => ?_, fun _ h1 => ⟨?_, ?_⟩⟩ <;>
    dsimp only [GridView.initState] <;> omega

/-- `__move_to` re-establishes the row-offset facts from scratch (its new
offset does not depend on the previous one). -/
theorem rowOK_moveTo (g : GridGeom) (s : GridState) (line : ℤ)
    (hh : 1 ≤ g.vRows) (hR : 0 ≤ g.mRows) :
    RowOffsetOK g (GridView.moveTo g s line) := by
  unfold RowOffsetOK GridView.moveTo
  cases hd : g.done <;> (simp [hd]; try omega)

/-- Each movement command preserves the row-offset facts. -/
theorem rowOK_step (g : GridGeom) (s : GridState) (c : GridCmd)
    (hh : 1 ≤ g.vRows) (hR : 0 ≤ g.mRows) (h : RowOffsetOK g s) :
    RowOffsetOK g (GridView.step g s c) := by
  cases c with
  | moveTo line => exact rowOK_moveTo g s line hh hR
  | moveBy d => exact rowOK_moveTo g s (s.idx0 + d) hh hR
  | moveToCol c =>
    simpa [GridView.step, GridView.moveToCol, RowOffsetOK] using h

/-- Any finite command sequence preserves the row-offset facts. -/
theorem rowOK_run (g : GridGeom) (cmds : List GridCmd)
    (hh : 1 ≤ g.vRows) (hR : 0 ≤ g.mRows) :
    ∀ s : GridState, RowOffsetOK g s → RowOffsetOK g (GridView.run g s cmds) := by
  induction cmds with
  | nil => intro s h; exact h
  | cons c cs ih =>
    intro s h
    exact ih (GridView.step g s c) (rowOK_step g s c hh hR h)

/-- C6 counterexample: the claimed viewport invariant fails on the code.
With a done model of 2 rows and viewport height 2, `move_to(5)` leaves
`row_offset = 1 > max(0, row_count - viewport_height) = 0`; and with a done
model of 0 rows, `move_to(0)` leaves `row_offset = -1 < 0`. -/
theorem claim6_offset_counterexample :
    (GridView.run (gridG 2 true 2) (GridView.initState (gridG 2 true 2))
        [.moveTo 5]).idx0 = 1 ∧
    ¬((GridView.run (gridG 2 true 2) (GridView.initState (gridG 2 true 2))
        [.moveTo 5]).idx0 ≤ max 0 (2 - 2)) ∧
    (GridView.run (gridG 0 true 2) (GridView.initState (gridG 0 true 2))
        [.moveTo 0]).idx0 = -1 := by decide

/-- C6 amended: after any finite sequence of `move_to` / `move_by` /
`move_to_column` commands (viewport height at least 1, row count
nonnegative), the row offset is at least `-1`; it is nonnegative whenever
the model is not done, and when the model is done with at least one row it
lies in `[0, row_count - 1]` — the code clamps a done model's offset to the
last row, not to `row_count - viewport_height`, and a done model with zero
rows is clamped to `-1`. -/
theorem claim6_offset_bounds (g : GridGeom) (cmds : List GridCmd)
    (hh : 1 ≤ g.vRows) (hR : 0 ≤ g.mRows) :
    -1 ≤ (GridView.run g (GridView.initState g) cmds).idx0 ∧
    (g.done = false → 0 ≤ (GridView.run g (GridView.initState g) cmds).idx0) ∧
    (g.done = true → 1 ≤ g.mRows →
      0 ≤ (GridView.run g (GridView.initState g) cmds).idx0 ∧
      (GridView.run g (GridView.initState g) cmds).idx0 ≤ g.mRows - 1) :=
  rowOK_run g cmds hh hR (GridView.initState g) (rowOK_initState g)

/-- Shared: the element `getLast?` returns is a member of the list. -/
theorem lastMem {α : Type} : ∀ {L : List α} {m : α}, L.getLast? = some m → m ∈ L := by
  intro L
  induction L with
  | nil => intro m h; simp at h
  | cons x rest ih =>
    intro m h
    cases rest with
    | nil => simp_all
    | cons y t =>
      rw [List.getLast?_cons_cons] at h
      exact List.mem_cons_of_mem x (ih h)

/-- Shared: in a `delimLe`-sorted list, the last element is a maximum. -/
theorem sortedLastMax : ∀ {L : List (ℕ × Char)}, L.Sorted delimLe →
    ∀ {m}, L.getLast? = some m → ∀ a ∈ L, delimLe a m := by
  intro L
  induction L with
  | nil => intro _ m h; simp at h
  | cons x rest ih =>
    intro hs m hm a ha
    cases rest with
    | nil =>
      simp only [List.getLast?_singleton, Option.some.injEq] at hm
      simp only [List.mem_singleton] at ha
      subst hm; subst ha
      exact Or.inr ⟨rfl, le_rfl⟩
    | cons y t =>
      rw [List.getLast?_cons_cons] at hm
      have hs' := List.sorted_cons.mp hs
      rcases List.mem_cons.mp ha with rfl | ha'
      · exact hs'.1 m (lastMem hm)
      · exact ih hs'.2 hm a ha'

/-- C8 counterexample: on the single sampled line `"a,b\tc"` both `','` and
`'\t'` parse every row to the same column count 2, yet the code selects
`','`, which appears *earlier* than `'\t'` in the priority-ordered candidate
list `DELIMS` — the tie is broken by the larger character code
(`','` = 44 > `'\t'` = 9), not by position in the candidate list as the
claim states. -/
theorem claim8_tie_counterexample :
    guessDelimiter ["a,b\tc"] = some ',' ∧
    getCount ',' "a,b\tc" [] = 2 ∧
    getCount '\t' "a,b\tc" [] = 2 ∧
    List.indexOf ',' DELIMS < List.indexOf '\t' DELIMS := by decide

/-- C8 amended: on a nonempty sample, delimiter detection returns a
candidate from `DELIMS` that maximizes the pair (consistent column count,
delimiter character code) in lexicographic order — every sampled row parses
to the same column count under a candidate or its count collapses to 0, and
ties on the count are broken toward the larger delimiter character, not
toward the later list position. -/
theorem claim8_argmax (l : String) (ls : List String) :
    ∃ dl, guessDelimiter (l :: ls) = some dl ∧ dl ∈ DELIMS ∧
      ∀ d2 ∈ DELIMS, delimLe (getCount d2 l ls, d2) (getCount dl l ls, dl) := by
  have hperm := List.perm_insertionSort delimLe
    (DELIMS.map (fun dl => (getCount dl l ls, dl)))
  have hsorted := List.sorted_insertionSort delimLe
    (DELIMS.map (fun dl => (getCount dl l ls, dl)))
  set counts := DELIMS.map (fun dl => (getCount dl l ls, dl)) with hc
  have hlen : (pySorted counts).length = counts.length := hperm.length_eq
  have hne : pySorted counts ≠ [] := by
    intro h
    rw [h] at hlen
    simp [hc, DELIMS] at hlen
  obtain ⟨m, hm⟩ : ∃ m, (pySorted counts).getLast? = some m := by
    cases h : (pySorted counts).getLast? with
    | none => exact absurd (List.getLast?_eq_none_iff.mp h) hne
    | some m => exact ⟨m, rfl⟩
  have hmem : m ∈ counts := hperm.mem_iff.mp (lastMem hm)
  obtain ⟨dl, hdl, hme⟩ := List.mem_map.mp hmem
  refine ⟨dl, ?_, hdl, ?_⟩
  · show ((pySorted counts).getLast?).map Prod.snd = some dl
    rw [hm, ← hme]
    rfl
  · intro d2 hd2
    have h2S : (getCount d2 l ls, d2) ∈ pySorted counts :=
      hperm.mem_iff.mpr (List.mem_map_of_mem _ hd2)
    have hle := sortedLastMax hsorted hm _ h2S
    rwa [← hme] at hle

/-- C8 witness: on the concrete sample `"a,b,c" / "1,2,3"` the detected
delimiter maximizes the (count, character) pair over all candidates. -/
theorem claim8_argmax_witness :
    ∃ dl, guessDelimiter ["a,b,c", "1,2,3"] = some dl ∧ dl ∈ DELIMS ∧
      ∀ d2 ∈ DELIMS, delimLe (getCount d2 "a,b,c" ["1,2,3"], d2)
        (getCount dl "a,b,c" ["1,2,3"], dl) :=
  claim8_argmax "a,b,c" ["1,2,3"]

/-- C6 witness: a done 3-row model with viewport height 2, paged down by 7
rows, ends with its offset inside `[0, 2]`. -/
theorem claim6_offset_bounds_witness :
    0 ≤ (GridView.run (gridG 3 true 2) (GridView.initState (gridG 3 true 2))
        [.moveBy 7]).idx0 ∧
    (GridView.run (gridG 3 true 2) (GridView.initState (gridG 3 true 2))
        [.moveBy 7]).idx0 ≤ 3 - 1 :=
  (claim6_offset_bounds (gridG 3 true 2) [.moveBy 7] (by decide)
    (by decide)).2.2 rfl (by decide)

/-- Shared: `String.mk` length. -/
theorem stringMk_length (cs : List Char) : (String.mk cs).length = cs.length := rfl

/-- Shared: the scientific constructor's literal processing
(`text.pad(s.strip()[: w], w)`) always yields exactly `w` characters. -/
theorem padStrTake_length (s : String) (w : ℕ) :
    (padStr (strTake s w) w ' ' false).length = w := by
  have ht : (strTake s w).length ≤ w := by
    simp only [strTake, stringMk_length]
    exact List.length_take_le w s.toList
  unfold padStr
  by_cases h : (strTake s w).length < w
  · rw [if_pos h, if_neg Bool.false_ne_true]
    have hrep : (String.mk (List.replicate (w - (strTake s w).length) ' ')).length
        = w - (strTake s w).length := by
      rw [stringMk_length, List.length_replicate]
    rw [String.length_append, hrep]
    omega
  · rw [if_neg h]
    omega

/-- C9 counterexample: constructing the scientific formatter with a NaN
literal longer than its 8-character field does not fail — it succeeds,
silently stripping and truncating the literal
(`"INVALID VALUE"` becomes `"INVALID "`). -/
theorem claim9_truncation_counterexample :
    ScientificFloatFormatter.init 2 (some 2) ' ' .minus "." "E"
        "INVALID VALUE" "Inf"
      = .ok ⟨2, 2, ' ', .minus, ".", "E", "INVALID ", "Inf     "⟩ ∧
    8 < ("INVALID VALUE" : String).length := by decide

/-- C9 amended: the fixed-point Float formatter does fail at construction
(assert) whenever the NaN or Infinity literal exceeds the numeric field;
the Scientific formatter never fails for that reason — with any
`precision = some p` it always constructs, storing literals stripped,
truncated and padded to exactly the pre-sign field width. -/
theorem claim9_literal_length_checks :
    (∀ (size : ℕ) (precision : Option ℕ) (pad : Char) (sign : Sgn)
        (point nanS infS : String),
      (FloatFormatter.mk size precision pad sign point nanS infS).preWidth
          < nanS.length ∨
        (FloatFormatter.mk size precision pad sign point nanS infS).preWidth
          < infS.length →
      FloatFormatter.init size precision pad sign point nanS infS
        = .error .assertErr) ∧
    (∀ (size p : ℕ) (pad : Char) (sign : Sgn) (point exp nanS infS : String),
      ∃ f, ScientificFloatFormatter.init size (some p) pad sign point exp
          nanS infS = .ok f ∧
        f.nanStr.length = 1 + point.length + p + exp.length + 1 + size ∧
        f.infStr.length = 1 + point.length + p + exp.length + 1 + size) := by
  constructor
  · intro size precision pad sign point nanS infS h
    simp only [FloatFormatter.init]
    split_ifs with h1 h2 h3 <;> try rfl
    all_goals rcases h with hx | hx <;> omega
  · intro size p pad sign point exp nanS infS
    refine ⟨_, rfl, ?_, ?_⟩ <;> exact padStrTake_length _ _

/-- C9 witness: `FloatFormatter(4, 0, nan_str="INVALID")` fails its
construction assert, while `ScientificFloatFormatter(2, 2)` constructs with
8-character NaN and Infinity literals. -/
theorem claim9_literal_length_checks_witness :
    FloatFormatter.init 4 (some 0) ' ' .minus "." "INVALID" "Inf"
      = .error .assertErr ∧
    ∃ f, ScientificFloatFormatter.init 2 (some 2) ' ' .minus "." "E"
        "NaN" "Inf" = .ok f ∧
      f.nanStr.length = 8 ∧ f.infStr.length = 8 :=
  ⟨claim9_literal_length_checks.1 4 (some 0) ' ' .minus "." "INVALID" "Inf"
      (by decide),
   claim9_literal_length_checks.2 2 2 ' ' .minus "." "E" "NaN" "Inf"⟩

/-- Shared helper for the dataframe row theorem: for every column list
whose columns all reach index `i`, the per-column lookup succeeds and
returns exactly the per-column values. -/
theorem colsRowAll {α : Type} : ∀ (cols : List (String × List α)) (i : ℕ),
    (∀ c ∈ cols, i < c.2.length) →
    ∃ vs, colVals? i cols = some vs ∧
      vs.length = cols.length ∧
      ∀ j : ℕ, vs[j]? = cols[j]?.bind (fun c : String × List α => c.2[i]?) := by
  intro cols
  induction cols with
  | nil =>
    intro i _
    exact ⟨[], rfl, rfl, by intro j; simp⟩
  | cons c cs ih =>
    intro i h
    obtain ⟨v, hv⟩ : ∃ v, c.2[i]? = some v := by
      have hc := h c (List.mem_cons_self c cs)
      exact ⟨c.2[i], List.getElem?_eq_getElem hc⟩
    obtain ⟨vs, hvs, hlen, hget⟩ :=
      ih i (fun c' hc' => h c' (List.mem_cons_of_mem _ hc'))
    refine ⟨v :: vs, ?_, by simp [hlen], ?_⟩
    · simp [colVals?, hv, hvs]
    · intro j
      cases j with
      | zero => simp [hv]
      | succ j => simpa using hget j

/-- C10: the dataframe-backed model exposes the index as an extra leading
column — `num_cols` is one more than the frame's column count, `names`
starts with the index name followed by the column names, and `get_row(i)`
returns the index value at `i` followed by that row's per-column values (a
row of exactly `num_cols` entries). -/
theorem claim10_dataframe_model {α : Type} (df : DataFrameModel α)
    (hlen : ∀ c ∈ df.cols, c.2.length = df.index.length)
    (i : ℕ) (hi : i < df.numRows) :
    df.numCols = 1 + df.cols.length ∧
    df.names = df.indexName :: df.cols.map (fun c => some c.1) ∧
    ∃ r, df.getRow? i = some r ∧ r.length = df.numCols ∧
      r[0]? = df.index[i]? ∧
      ∀ j : ℕ, r[j + 1]? = df.cols[j]?.bind (fun c : String × List α => c.2[i]?) := by
  refine ⟨rfl, rfl, ?_⟩
  have hi' : i < df.index.length := hi
  obtain ⟨iv, hiv⟩ : ∃ iv, df.index[i]? = some iv :=
    ⟨df.index[i], List.getElem?_eq_getElem hi'⟩
  obtain ⟨vs, hvs, hlen2, hget⟩ :=
    colsRowAll df.cols i (fun c hc => by rw [hlen c hc]; exact hi')
  refine ⟨iv :: vs, ?_, ?_, ?_, ?_⟩
  · unfold DataFrameModel.getRow?
    rw [hiv, hvs]
  · simp [DataFrameModel.numCols, hlen2]
    omega
  · simp [hiv]
  · intro j
    simpa using hget j

/-- C10 witness: on a concrete 2-row, 2-column frame with a named index,
row 1 is the index value 20 followed by the column values 2 and 4. -/
theorem claim10_dataframe_model_witness :
    dfExample.numCols = 1 + dfExample.cols.length ∧
    dfExample.names = dfExample.indexName ::
      dfExample.cols.map (fun c => some c.1) ∧
    ∃ r, dfExample.getRow? 1 = some r ∧ r.length = dfExample.numCols ∧
      r[0]? = dfExample.index[1]? ∧
      ∀ j : ℕ, r[j + 1]? = dfExample.cols[j]?.bind
        (fun c : String × List ℤ => c.2[1]?) :=
  claim10_dataframe_model dfExample (by decide) 1 (by decide)

end Ngrid
